import Mathlib

/-
Verification of the room-scoped publish/relay subsystem of the chat
application (source: src/README.md code snippets, src/unnamed/part_000).

The TypeScript snippets are embedded shallowly:
- the socket.io handshake middleware and room registry (setupSocket),
- the Kafka admin topic creation (createTopicIfNotExists),
- the producer path (connectKafkaProducer, produceMessage),
- the startup sequencing in section 3 of the README,
- the zod createChatSchema (src/unnamed/part_000).
JSON serialization of messages (JSON.stringify / JSON.parse) is an external
wire format the producer and consumer agree on; records carry the message
value transparently here, while the record key is modeled exactly as the
code builds it.
-/

set_option autoImplicit false

/-- A chat message as the application handles it: the client event object
carries the target room (the consumer reads data.room) and the payload. -/
structure ChatMessage where
  room : String
  payload : String
deriving DecidableEq, Repr

/-- Handshake data of a connecting socket. The middleware in setupSocket
reads socket.handshake.auth.room and socket.handshake.headers.room; either
may be absent (none) or present, possibly as an empty string. -/
structure Handshake where
  auth : Option String
  headers : Option String
deriving DecidableEq, Repr

/-- JavaScript truthiness of an optional string: undefined and the empty
string are falsy, every non-empty string is truthy. -/
def jsTruthy : Option String → Bool
  | none => false
  | some s => !s.isEmpty

/-- The JavaScript short-circuit disjunction on optional strings: yields the
first operand when it is truthy, otherwise the second. Embeds the source
expression socket.handshake.auth.room OR socket.handshake.headers.room. -/
def jsOr (a b : Option String) : Option String :=
  if jsTruthy a then a else b

/-- Result of the connection middleware: next() with the room recorded on
the socket, or next(new Error("Invalid room id")). -/
inductive AcceptResult where
  | accepted (room : String)
  | rejected (err : String)
deriving DecidableEq, Repr

/-- The io.use middleware of setupSocket:
let room = handshake.auth.room or handshake.headers.room;
if room is falsy, reject with "Invalid room id"; otherwise store it. -/
def setupSocketMiddleware (h : Handshake) : AcceptResult :=
  let room := jsOr h.auth h.headers
  if !jsTruthy room then
    .rejected "Invalid room id"
  else
    .accepted (room.getD "")

/-- The per-instance room registry of socket.io: pairs of
(socket id, room the socket joined). -/
abbrev Registry := List (String × String)

/-- Connection handling of setupSocket: a socket that passes the middleware
joins its room (socket.join(socket.room)); a rejected socket is never
registered. Returns the updated registry and the middleware outcome. -/
def handleConnection (reg : Registry) (sid : String) (h : Handshake) :
    Registry × AcceptResult :=
  match setupSocketMiddleware h with
  | .rejected e => (reg, .rejected e)
  | .accepted room => (List.append reg [(sid, room)], .accepted room)

/-- A Kafka topic as created by the admin client: name and partition count. -/
structure Topic where
  name : String
  numPartitions : Nat
deriving DecidableEq, Repr

/-- State of the Kafka cluster visible to the admin client: the topics that
exist. -/
structure AdminState where
  topics : List Topic
deriving DecidableEq, Repr

/-- Operations createTopicIfNotExists issues against the admin interface. -/
inductive AdminOp where
  | connect
  | listTopics
  | createTopics (ts : List Topic)
  | disconnect
deriving DecidableEq, Repr

/-- createTopicIfNotExists(topicName): connect the admin client, list the
topics, create the topic with numPartitions 1 only when its name is absent
from the list, then disconnect. Returns the new cluster state and the list
of admin operations issued, in order. -/
def createTopicIfNotExists (st : AdminState) (topicName : String) :
    AdminState × List AdminOp :=
  let topics := st.topics.map (·.name)
  if topicName ∈ topics then
    (st, [.connect, .listTopics, .disconnect])
  else
    (⟨st.topics ++ [⟨topicName, 1⟩]⟩,
      [.connect, .listTopics, .createTopics [⟨topicName, 1⟩], .disconnect])

/-- A JSON-ish value as zod sees an input field. -/
inductive ZVal where
  | vstr (s : String)
  | vnum (n : Int)
  | vbool (b : Bool)
  | vnull
deriving DecidableEq, Repr

/-- An input object for createChatSchema: the title and passcode fields,
each possibly missing or of a non-string type. -/
structure CreateChatInput where
  title : Option ZVal
  passcode : Option ZVal
deriving DecidableEq, Repr

/-- A successfully parsed createChatSchema result. -/
structure CreateChatParsed where
  title : String
  passcode : String
deriving DecidableEq, Repr

/-- Validation of one required string field with zod
z.string().min(lo).max(hi): the field must be present, be a string, and
have length between lo and hi inclusive; on success the string is returned
unchanged. -/
def zStringField (v : Option ZVal) (lo hi : Nat) : Option String :=
  match v with
  | some (.vstr s) => if lo ≤ s.length ∧ s.length ≤ hi then some s else none
  | _ => none

/-- createChatSchema (src/unnamed/part_000): a required object of
title: z.string().min(4).max(191) and passcode: z.string().min(4).max(25).
Parsing succeeds exactly when both fields validate. -/
def createChatSchemaParse (input : CreateChatInput) : Option CreateChatParsed :=
  match zStringField input.title 4 191, zStringField input.passcode 4 25 with
  | some t, some p => some ⟨t, p⟩
  | _, _ => none

/-- Outcome of one producer.send call against the broker: the broker
acknowledges the append, or the call fails with a transient error. -/
inductive SendOutcome where
  | ok
  | err (e : String)
deriving DecidableEq, Repr

/-- How a JavaScript promise settles for its caller: resolved with a value,
or rejected with an error. -/
inductive JsOutcome (α : Type) where
  | resolved (v : α)
  | rejected (err : String)
deriving DecidableEq, Repr

/-- A record as produceMessage builds it for producer.send: the code passes
only a value (JSON.stringify(message)) and no key. The JSON encoding is the
wire format producer and consumer agree on (an external collaborator
concern), so the record carries the message transparently here; the key
field is modeled exactly as the code builds it. -/
structure KafkaRecord where
  key : Option String
  value : ChatMessage
deriving DecidableEq, Repr

/-- State of the durable log as the producer sees it: the records appended
to the chats topic, in append order. -/
structure ProducerState where
  log : List KafkaRecord
deriving DecidableEq, Repr

/-- producer.send: on broker acknowledgement the records are appended and
the promise resolves; on a transient failure nothing is appended and the
promise rejects. -/
def producerSend (st : ProducerState) (recs : List KafkaRecord)
    (outcome : SendOutcome) : ProducerState × JsOutcome Unit :=
  match outcome with
  | .ok => (⟨st.log ++ recs⟩, .resolved ())
  | .err e => (st, .rejected e)

/-- produceMessage(topic, message): awaits
producer.send of one record with value JSON.stringify(message) and no key,
inside a try/catch whose catch only logs the error. The call therefore
resolves normally for its caller in both cases. -/
def produceMessage (st : ProducerState) (topic : String)
    (message : ChatMessage) (outcome : SendOutcome) :
    ProducerState × JsOutcome Unit :=
  let r := producerSend st [{ key := none, value := message }] outcome
  match r.2 with
  | .resolved _ => (r.1, .resolved ())
  | .rejected _ => (r.1, .resolved ())

/-- Socket ids currently joined to a room, read from the registry. -/
def roomMembers (reg : Registry) (room : String) : List String :=
  (reg.filter (fun c => c.2 == room)).map (·.1)

/-- socket.to(room).emit("message", data): one send attempt per socket in
the room except the sending socket itself. -/
def socketToEmit (reg : Registry) (room sender : String) (m : ChatMessage) :
    List (String × ChatMessage) :=
  ((roomMembers reg room).filter (fun sid => sid != sender)).map
    (fun sid => (sid, m))

/-- io.to(room).emit("message", data), as run inside the consumer code of
the actual workflow: one send attempt per socket in the room, the sender
included when it is joined to the room. -/
def ioToEmit (reg : Registry) (room : String) (m : ChatMessage) :
    List (String × ChatMessage) :=
  (roomMembers reg room).map (fun sid => (sid, m))

/-- The message event handler of setupSocket:
await produceMessage("chats", data), then
socket.to(socket.room).emit("message", data). Returns the producer state
after the publish attempt and the direct send attempts made. -/
def onMessageHandler (st : ProducerState) (reg : Registry)
    (sender room : String) (data : ChatMessage) (outcome : SendOutcome) :
    ProducerState × List (String × ChatMessage) :=
  let st2 := (produceMessage st "chats" data outcome).1
  (st2, socketToEmit reg room sender data)

/-- Stand-in for the murmur-style key hash of the client library partitioner
(an external collaborator). The records built by produceMessage carry no
key, so this hash is never consulted on the path verified here. -/
def strHash (s : String) : Nat :=
  s.data.foldl (fun h c => h * 31 + c.toNat) 17

/-- Partition the log assigns to a record: a keyed record hashes its key; an
unkeyed record gets the free choice of the partitioner; both are reduced
modulo the partition count of the topic. -/
def recordPartition (r : KafkaRecord) (choice numPartitions : Nat) : Nat :=
  match r.key with
  | some k => strHash k % numPartitions
  | none => choice % numPartitions

/-- Partition count of the chats topic: createTopicIfNotExists creates it
with numPartitions hardcoded to 1. -/
def chatsNumPartitions : Nat := 1

/-- One publish attempt of the producer: the message, the broker outcome of
producer.send, and the free partition choice the partitioner would make for
an unkeyed record. -/
structure PublishAttempt where
  message : ChatMessage
  outcome : SendOutcome
  choice : Nat
deriving DecidableEq, Repr

/-- The record an attempt lands in the partitioned log: an acknowledged send
appends the unkeyed record built by produceMessage, tagged with the
partition the log assigned; a failed send appends nothing. -/
def publishedRecord (a : PublishAttempt) : Option (Nat × ChatMessage) :=
  match a.outcome with
  | .ok => some (recordPartition { key := none, value := a.message }
      a.choice chatsNumPartitions, a.message)
  | .err _ => none

/-- The partitioned log after a sequence of publish attempts by one
producer, in append order, each record tagged with its partition. -/
def publishAll (attempts : List PublishAttempt) : List (Nat × ChatMessage) :=
  attempts.filterMap publishedRecord

/-- The messages whose publish the broker acknowledged, in publish order. -/
def successfulPublishes (attempts : List PublishAttempt) : List ChatMessage :=
  attempts.filterMap (fun a =>
    match a.outcome with
    | .ok => some a.message
    | .err _ => none)

/-- Folding produceMessage over a sequence of publish attempts, starting
from an empty log: the producer state the code reaches. -/
def runProducer (attempts : List PublishAttempt) : ProducerState :=
  attempts.foldl (fun st a => (produceMessage st "chats" a.message a.outcome).1) ⟨[]⟩

/-- A consumer delivery sequence for a partitioned log: per partition, the
records are consumed in append order (the interleaving across partitions is
unconstrained, as each partition is owned by one group member). -/
def IsDeliverySequence (log d : List (Nat × ChatMessage)) : Prop :=
  ∀ p, d.filter (fun r => r.1 == p) = log.filter (fun r => r.1 == p)

/-- The Deliver calls the relay makes for a delivery sequence: for each
consumed record the consumer code runs io.to(data.room).emit("message",
data), one Deliver per record in consumption order. -/
def deliverCalls (d : List (Nat × ChatMessage)) : List ChatMessage :=
  d.map (·.2)

/-- Events of server startup, from section 3 of the README: an async
immediately-invoked function runs createTopicIfNotExists("chats") inside a
try/catch that only logs errors, and, without that promise being awaited,
connectKafkaProducer() is invoked next; index.ts then creates the HTTP
server, attaches socket.io, calls setupSocket and starts listening. -/
inductive StartupEvent where
  | adminConnectStarted
  | ensureTopicSettled (ok : Bool)
  | producerConnectStarted
  | producerConnected
  | serverListening
deriving DecidableEq, Repr

/-- The startup trace under JavaScript event-loop semantics: the topic
creation function runs synchronously up to its first await (admin.connect),
then the top level continues, connectKafkaProducer runs up to its first
await (producer.connect), and the server starts listening; only afterwards
do the two pending promises settle, in either order (ensureFirst picks the
order). The topic creation settles with ok = false when it failed and the
catch logged the error. -/
def bootTrace (ensureOk ensureFirst : Bool) : List StartupEvent :=
  [.adminConnectStarted, .producerConnectStarted, .serverListening] ++
    (if ensureFirst then [.ensureTopicSettled ensureOk, .producerConnected]
     else [.producerConnected, .ensureTopicSettled ensureOk])

/-- One event happens strictly before another in a trace: both occur, and
the first occurrence of the first is earlier. -/
def precedes (e1 e2 : StartupEvent) (tr : List StartupEvent) : Bool :=
  tr.contains e1 && tr.contains e2 &&
    decide (tr.indexOf e1 < tr.indexOf e2)

/-- Concrete registry used to instantiate the Deliver fan-out theorem. -/
def c6Registry : Registry :=
  [("a", "room123"), ("b", "room123"), ("c", "lobby")]

/-- Concrete publish attempts used to instantiate the ordering theorem. -/
def c1Attempts : List PublishAttempt :=
  [⟨⟨"room123", "hello"⟩, .ok, 0⟩,
   ⟨⟨"room123", "world"⟩, .err "transient", 3⟩,
   ⟨⟨"lobby", "hey"⟩, .ok, 7⟩,
   ⟨⟨"room123", "again"⟩, .ok, 5⟩]

/-- C3: a handshake whose room is absent or empty in both the auth field and
the header field is rejected with the invalid-room error and the registry is
left unchanged, so the connection is never registered in any room. -/
theorem claim_C3_invalid_room_rejected (reg : Registry) (sid : String)
    (h : Handshake)
    (ha : h.auth = none ∨ h.auth = some "")
    (hh : h.headers = none ∨ h.headers = some "") :
    handleConnection reg sid h = (reg, .rejected "Invalid room id") := by
  have hta : jsTruthy h.auth = false := by
    rcases ha with ha | ha <;> rw [ha] <;> decide
  have hth : jsTruthy h.headers = false := by
    rcases hh with hh | hh <;> rw [hh] <;> decide
  unfold handleConnection setupSocketMiddleware jsOr
  simp [hta, hth]

/-- Witness for C3 at a concrete handshake carrying an empty auth room and
no header room. -/
theorem claim_C3_witness :
    handleConnection [("s1", "room123")] "s2" ⟨some "", none⟩ =
      ([("s1", "room123")], .rejected "Invalid room id") :=
  claim_C3_invalid_room_rejected [("s1", "room123")] "s2" ⟨some "", none⟩
    (Or.inr rfl) (Or.inl rfl)

/-- Helper: when the topic name is already present, createTopicIfNotExists
leaves the cluster state unchanged and issues no create operation. -/
theorem createTopicIfNotExists_of_mem (st : AdminState) (name : String)
    (hmem : name ∈ st.topics.map (·.name)) :
    createTopicIfNotExists st name =
      (st, [.connect, .listTopics, .disconnect]) := by
  unfold createTopicIfNotExists
  simp [hmem]

/-- Helper: after any call of createTopicIfNotExists, the requested topic
name is present in the cluster state. -/
theorem createTopicIfNotExists_ensures (st : AdminState) (name : String) :
    name ∈ (createTopicIfNotExists st name).1.topics.map (·.name) := by
  unfold createTopicIfNotExists
  by_cases hc : name ∈ st.topics.map (·.name) <;> simp [hc]

/-- C7: createTopicIfNotExists is idempotent: calling it a second time with
the same topic name after a first call changes nothing, issues no create
operation, and completes normally (the topic list after the second call
equals the topic list after the first). -/
theorem claim_C7_ensure_topic_idempotent (st : AdminState) (name : String) :
    (createTopicIfNotExists (createTopicIfNotExists st name).1 name).1 =
        (createTopicIfNotExists st name).1 ∧
    (∀ ts, AdminOp.createTopics ts ∉
        (createTopicIfNotExists (createTopicIfNotExists st name).1 name).2) := by
  rw [createTopicIfNotExists_of_mem _ _ (createTopicIfNotExists_ensures st name)]
  exact ⟨rfl, by simp⟩

/-- Helper: characterization of one required zod string field with length
bounds. -/
theorem zStringField_eq_some (v : Option ZVal) (lo hi : Nat) (s : String) :
    zStringField v lo hi = some s ↔
      v = some (.vstr s) ∧ lo ≤ s.length ∧ s.length ≤ hi := by
  rcases v with _ | vv
  · simp [zStringField]
  rcases vv with t | n | b | _
  · show (if lo ≤ t.length ∧ t.length ≤ hi then some t else none) = some s ↔ _
    by_cases hl : lo ≤ t.length ∧ t.length ≤ hi
    · rw [if_pos hl]
      constructor
      · intro heq
        obtain rfl := Option.some.inj heq
        exact ⟨rfl, hl⟩
      · rintro ⟨heq, -⟩
        obtain rfl : t = s := by
          cases (Option.some.inj heq); rfl
        rfl
    · rw [if_neg hl]
      constructor
      · intro heq; cases heq
      · rintro ⟨heq, hb⟩
        obtain rfl : t = s := by
          cases (Option.some.inj heq); rfl
        exact absurd hb hl
  · simp [zStringField]
  · simp [zStringField]
  · simp [zStringField]

/-- C10: createChatSchema validation succeeds exactly when the input has a
string title of length between 4 and 191 and a string passcode of length
between 4 and 25, and on success the parsed values equal the input values
unchanged. -/
theorem claim_C10_create_chat_schema (input : CreateChatInput)
    (out : CreateChatParsed) :
    createChatSchemaParse input = some out ↔
      (input.title = some (.vstr out.title) ∧
        4 ≤ out.title.length ∧ out.title.length ≤ 191 ∧
        input.passcode = some (.vstr out.passcode) ∧
        4 ≤ out.passcode.length ∧ out.passcode.length ≤ 25) := by
  unfold createChatSchemaParse
  constructor
  · intro hparse
    rcases ht : zStringField input.title 4 191 with _ | t <;>
      rcases hp : zStringField input.passcode 4 25 with _ | p <;>
        rw [ht, hp] at hparse <;> try cases hparse
    obtain ⟨h1, h2, h3⟩ := (zStringField_eq_some _ _ _ _).mp ht
    obtain ⟨h4, h5, h6⟩ := (zStringField_eq_some _ _ _ _).mp hp
    exact ⟨h1, h2, h3, h4, h5, h6⟩
  · rintro ⟨h1, h2, h3, h4, h5, h6⟩
    rw [(zStringField_eq_some input.title 4 191 out.title).mpr ⟨h1, h2, h3⟩,
      (zStringField_eq_some input.passcode 4 25 out.passcode).mpr ⟨h4, h5, h6⟩]

/-- C2 counterexample: with an empty log, a registry holding sockets a and b
in room123, and a transient publish failure, the handler appends nothing to
the durable log yet still sends the message directly to socket b — a direct
broadcast happens independently of a successful publish. -/
theorem claim_C2_counterexample :
    (onMessageHandler ⟨[]⟩ [("a", "room123"), ("b", "room123")] "a" "room123"
        ⟨"room123", "hello"⟩ (.err "transient")).1.log = [] ∧
    (onMessageHandler ⟨[]⟩ [("a", "room123"), ("b", "room123")] "a" "room123"
        ⟨"room123", "hello"⟩ (.err "transient")).2 =
      [("b", ⟨"room123", "hello"⟩)] :=
  ⟨rfl, rfl⟩

/-- C2 amended: the handler always broadcasts the inbound message directly
to the other members of the sender room — the send attempts are the same
whatever the publish outcome — and a failed publish leaves the producer
state unchanged while the broadcast still happens. -/
theorem claim_C2_amended (st : ProducerState) (reg : Registry)
    (sender room : String) (data : ChatMessage) (outcome : SendOutcome)
    (e : String) :
    (onMessageHandler st reg sender room data outcome).2 =
        (onMessageHandler st reg sender room data .ok).2 ∧
    (onMessageHandler st reg sender room data (.err e)).1 = st := by
  refine ⟨rfl, ?_⟩
  rfl

/-- C4 counterexample: a successful produceMessage for a message of room
room123 appends one record whose key is none, not the room identifier. -/
theorem claim_C4_counterexample :
    ((produceMessage ⟨[]⟩ "chats" ⟨"room123", "hello"⟩ .ok).1.log.map
        (·.key)) = [none] ∧
    (none : Option String) ≠ some "room123" :=
  ⟨rfl, by simp⟩

/-- C4 amended: a successful produceMessage appends exactly one record,
carrying no key and the message as value; every such unkeyed record is
routed to partition 0 because the chats topic is created with a single
partition, and this single partition is what keeps all messages of one room
on the same partition. -/
theorem claim_C4_amended (st : ProducerState) (topic : String)
    (m : ChatMessage) :
    (produceMessage st topic m .ok).1.log =
        st.log ++ [{ key := none, value := m }] ∧
    (∀ choice, recordPartition { key := none, value := m } choice
        chatsNumPartitions = 0) := by
  refine ⟨rfl, fun choice => ?_⟩
  simp [recordPartition, chatsNumPartitions, Nat.mod_one]

/-- C5 counterexample: on a transient send failure produceMessage still
resolves normally — its caller-visible result is identical to the result of
an acknowledged send — while the log is left unchanged; the failure is
absorbed inside produceMessage, not returned as a failed result. -/
theorem claim_C5_counterexample :
    (produceMessage ⟨[]⟩ "chats" ⟨"room123", "hello"⟩ (.err "transient")).2 =
        .resolved () ∧
    (produceMessage ⟨[]⟩ "chats" ⟨"room123", "hello"⟩ (.err "transient")).2 =
        (produceMessage ⟨[]⟩ "chats" ⟨"room123", "hello"⟩ .ok).2 ∧
    (produceMessage ⟨[]⟩ "chats" ⟨"room123", "hello"⟩ (.err "transient")).1.log
        = [] :=
  ⟨rfl, rfl, rfl⟩

/-- C5 amended: produceMessage resolves normally for every send outcome (the
try/catch logs and swallows failures, so the caller never observes one); the
append happens exactly when the broker acknowledged the send: an
acknowledged send appends the record, a failed send leaves the log
unchanged. -/
theorem claim_C5_amended (st : ProducerState) (topic : String)
    (m : ChatMessage) (outcome : SendOutcome) :
    (produceMessage st topic m outcome).2 = .resolved () ∧
    (produceMessage st topic m .ok).1.log =
        st.log ++ [{ key := none, value := m }] ∧
    (∀ e, (produceMessage st topic m (.err e)).1.log = st.log) := by
  refine ⟨?_, rfl, fun e => rfl⟩
  cases outcome <;> rfl

/-- C8 counterexample: in the startup trace the producer connection is
initiated before the topic creation settles, under either settling order —
EnsureTopic does not complete before the Publisher connects. -/
theorem claim_C8_counterexample :
    precedes (.ensureTopicSettled true) .producerConnectStarted
        (bootTrace true true) = false ∧
    precedes (.ensureTopicSettled true) .producerConnectStarted
        (bootTrace true false) = false := by
  decide

/-- C8 amended: startup is not sequenced: the unawaited async call running
createTopicIfNotExists lets the top level continue, so the producer
connection is initiated, and the server even starts listening, strictly
before the topic creation settles — under every settling order and outcome. -/
theorem claim_C8_amended (ensureOk ensureFirst : Bool) :
    precedes .producerConnectStarted (.ensureTopicSettled ensureOk)
        (bootTrace ensureOk ensureFirst) = true ∧
    precedes .serverListening (.ensureTopicSettled ensureOk)
        (bootTrace ensureOk ensureFirst) = true := by
  cases ensureOk <;> cases ensureFirst <;> decide

/-- C9 counterexample: when topic creation fails, the startup trace still
holds exactly one admin connection attempt (no retry), the producer still
connects, and the server still starts listening — the failure is only
logged by the catch, and startup is not aborted. -/
theorem claim_C9_counterexample :
    (bootTrace false true).count .adminConnectStarted = 1 ∧
    .serverListening ∈ bootTrace false true ∧
    .producerConnected ∈ bootTrace false true ∧
    .ensureTopicSettled false ∈ bootTrace false true := by
  decide

/-- C9 amended: a failed EnsureTopic is caught inside the startup function
and only logged: there is exactly one attempt, no retry and no abort, and
the process proceeds to connect the producer and accept client connections
regardless, under either settling order. -/
theorem claim_C9_amended (ensureFirst : Bool) :
    (bootTrace false ensureFirst).count .adminConnectStarted = 1 ∧
    .serverListening ∈ bootTrace false ensureFirst ∧
    .producerConnected ∈ bootTrace false ensureFirst ∧
    .ensureTopicSettled false ∈ bootTrace false ensureFirst := by
  cases ensureFirst <;> decide

/-- Helper: counting a pair in a list of sockets all paired with the same
payload counts the socket. -/
theorem count_map_pair (l : List String) (m : ChatMessage) (sid : String) :
    (l.map (fun s => (s, m))).count (sid, m) = l.count sid := by
  induction l with
  | nil => rfl
  | cons a t ih =>
      simp only [List.map_cons, List.count_cons, ih]
      congr 1
      by_cases hae : a = sid
      · subst hae; simp
      · have h1 : ((a, m) == (sid, m)) = false := by
          simp [Prod.ext_iff, hae]
        have h2 : (a == sid) = false := by
          simp [hae]
        rw [h1, h2]

/-- C6: with a duplicate-free registry, a single Deliver fan-out through
io.to(room).emit makes exactly one send attempt to every connection
registered under the room at call time — the sender included when it is
registered there — and no send attempt reaches a connection that is not
registered under the room. -/
theorem claim_C6_deliver_exactly_once (reg : Registry) (R : String)
    (m : ChatMessage) (sender : String) (hnd : reg.Nodup) :
    (∀ sid, (ioToEmit reg R m).count (sid, m) =
        if (sid, R) ∈ reg then 1 else 0) ∧
    (∀ sid p, (sid, p) ∈ ioToEmit reg R m → (sid, R) ∈ reg ∧ p = m) ∧
    ((sender, R) ∈ reg → (ioToEmit reg R m).count (sender, m) = 1) := by
  have hmem : ∀ sid, sid ∈ roomMembers reg R ↔ (sid, R) ∈ reg := by
    intro sid
    unfold roomMembers
    constructor
    · intro hs
      obtain ⟨x, hx, hx1⟩ := List.mem_map.mp hs
      obtain ⟨hxreg, hx2⟩ := List.mem_filter.mp hx
      have hx2e : x.2 = R := by simpa using hx2
      have hxe : x = (sid, R) := by
        obtain ⟨x1, x2⟩ := x
        have h1 : x1 = sid := hx1
        have h2 : x2 = R := hx2e
        rw [h1, h2]
      rwa [hxe] at hxreg
    · intro hs
      exact List.mem_map.mpr ⟨(sid, R), List.mem_filter.mpr ⟨hs, by simp⟩, rfl⟩
  have hnodup : (roomMembers reg R).Nodup := by
    unfold roomMembers
    refine List.Nodup.map_on ?_ (hnd.filter _)
    intro x hx y hy hxy
    have hx2 : x.2 = R := by simpa using (List.mem_filter.mp hx).2
    have hy2 : y.2 = R := by simpa using (List.mem_filter.mp hy).2
    obtain ⟨x1, x2⟩ := x
    obtain ⟨y1, y2⟩ := y
    have h1 : x1 = y1 := hxy
    have h2 : x2 = R := hx2
    have h3 : y2 = R := hy2
    rw [h1, h2, h3]
  have hcount : ∀ sid, (ioToEmit reg R m).count (sid, m) =
      if (sid, R) ∈ reg then 1 else 0 := by
    intro sid
    have h1 : (ioToEmit reg R m).count (sid, m) =
        (roomMembers reg R).count sid := by
      unfold ioToEmit
      exact count_map_pair _ _ _
    rw [h1, List.count_eq_of_nodup hnodup]
    by_cases hs : (sid, R) ∈ reg
    · rw [if_pos ((hmem sid).mpr hs), if_pos hs]
    · rw [if_neg (fun hc => hs ((hmem sid).mp hc)), if_neg hs]
  refine ⟨hcount, ?_, fun hs => by rw [hcount sender, if_pos hs]⟩
  intro sid p hp
  obtain ⟨x, hx, hxe⟩ := List.mem_map.mp hp
  injection hxe with h1 h2
  subst h1
  subst h2
  exact ⟨(hmem x).mp hx, rfl⟩

/-- Witness for C6 at a concrete registry holding the sender a and peer b in
room123 and socket c in another room. -/
theorem claim_C6_witness :
    c6Registry.Nodup ∧
    ((∀ sid, (ioToEmit c6Registry "room123" ⟨"room123", "hello"⟩).count
          (sid, ⟨"room123", "hello"⟩) =
        if (sid, "room123") ∈ c6Registry then 1 else 0) ∧
      (∀ sid p, (sid, p) ∈ ioToEmit c6Registry "room123" ⟨"room123", "hello"⟩ →
        (sid, "room123") ∈ c6Registry ∧ p = ⟨"room123", "hello"⟩) ∧
      (("a", "room123") ∈ c6Registry →
        (ioToEmit c6Registry "room123" ⟨"room123", "hello"⟩).count
          ("a", ⟨"room123", "hello"⟩) = 1)) :=
  ⟨by decide, claim_C6_deliver_exactly_once c6Registry "room123"
    ⟨"room123", "hello"⟩ "a" (by decide)⟩

/-- Helper: the Deliver calls made for the full partitioned log, in log
order, are exactly the acknowledged publishes in publish order. -/
theorem deliverCalls_publishAll (attempts : List PublishAttempt) :
    deliverCalls (publishAll attempts) = successfulPublishes attempts := by
  unfold deliverCalls publishAll successfulPublishes
  rw [List.map_filterMap]
  congr 1
  funext a
  cases ho : a.outcome <;> simp [publishedRecord, ho]

/-- C1: for every sequence of publish attempts by one producer and every
delivery sequence the consumer group can observe for the resulting
partitioned log of the chats topic (per partition, records arrive in append
order), the Deliver calls for a room happen exactly in the order the
messages of that room were acknowledged as published: the chats topic has a
single partition, so the whole log is consumed in append order. -/
theorem claim_C1_per_room_order (attempts : List PublishAttempt)
    (d : List (Nat × ChatMessage)) (R : String)
    (hd : IsDeliverySequence (publishAll attempts) d) :
    (deliverCalls d).filter (fun mm => mm.room == R) =
      (successfulPublishes attempts).filter (fun mm => mm.room == R) := by
  have hzero : ∀ x ∈ publishAll attempts, x.1 = 0 := by
    intro x hx
    obtain ⟨a, -, ha⟩ := List.mem_filterMap.mp hx
    cases ho : a.outcome with
    | ok =>
        unfold publishedRecord at ha
        rw [ho] at ha
        obtain rfl := Option.some.inj ha
        simp [recordPartition, chatsNumPartitions, Nat.mod_one]
    | err e =>
        unfold publishedRecord at ha
        rw [ho] at ha
        cases ha
  have hsub : ∀ x ∈ d, x ∈ publishAll attempts := by
    intro x hx
    have hxf : x ∈ d.filter (fun r => r.1 == x.1) :=
      List.mem_filter.mpr ⟨hx, by simp⟩
    rw [hd x.1] at hxf
    exact (List.mem_filter.mp hxf).1
  have hdz : ∀ x ∈ d, x.1 = 0 := fun x hx => hzero x (hsub x hx)
  have hdfilter : d.filter (fun r => r.1 == 0) = d :=
    List.filter_eq_self.mpr (fun x hx => by simp [hdz x hx])
  have hlfilter : (publishAll attempts).filter (fun r => r.1 == 0) =
      publishAll attempts :=
    List.filter_eq_self.mpr (fun x hx => by simp [hzero x hx])
  have hdlog : d = publishAll attempts := by
    calc d = d.filter (fun r => r.1 == 0) := hdfilter.symm
    _ = (publishAll attempts).filter (fun r => r.1 == 0) := hd 0
    _ = publishAll attempts := hlfilter
  rw [hdlog, deliverCalls_publishAll]

/-- Witness for C1 at concrete publish attempts: two acknowledged messages
of room123, one failed publish of room123 in between, one acknowledged
message of another room, consumed as the single-partition log dictates. -/
theorem claim_C1_witness :
    IsDeliverySequence (publishAll c1Attempts) (publishAll c1Attempts) ∧
    (deliverCalls (publishAll c1Attempts)).filter
        (fun mm => mm.room == "room123") =
      (successfulPublishes c1Attempts).filter
        (fun mm => mm.room == "room123") :=
  ⟨fun p => rfl,
    claim_C1_per_room_order c1Attempts (publishAll c1Attempts) "room123"
      (fun p => rfl)⟩
